import Mathlib

/-!
# Lucky-Card admin controller: settlement, winnings ledger and report totals

A shallow embedding of `src/controllers/adminController.js`.

* Collections of the document store are lists in insertion (natural) order.
  `Model.find(q)` is `List.filter`, `Model.findOne(q)` is `List.find?` (the first
  match), `doc.save()` appends at the end, `findOneAndUpdate` rewrites the first
  match in place.
* JavaScript numbers are read over exact arithmetic and are modelled by `ℚ`.
* Identifiers (`adminId`, `gameId`) are strings, card numbers are naturals.
  Request fields that may be missing are `Option`s.
* Store calls are taken to succeed; the only exception modelled is the
  `TypeError` raised by a property access on `undefined` / `null`.
-/

namespace LuckyCard

/-! ## Data model -/

/-- One element of `bet.card`: `{ cardNo, Amount }`. -/
structure Stake where
  cardNo : Nat
  Amount : ℚ
deriving DecidableEq

/-- One element of `game.Bets`: `{ adminID, card: [...] }`. -/
structure Bet where
  adminID : String
  card : List Stake
deriving DecidableEq

/-- A `Game` document: `{ GameId, Bets }`. -/
structure Game where
  GameId : String
  Bets : List Bet
deriving DecidableEq

/-- A `SelectedCard` document: `{ gameId, cardId, multiplier }`. -/
structure SelectedCard where
  gameId : String
  cardId : Nat
  multiplier : ℚ
deriving DecidableEq

/-- An `AdminWinnings` document: `{ adminId, gameId, winningAmount }`. -/
structure AdminWinnings where
  adminId : String
  gameId : String
  winningAmount : ℚ
deriving DecidableEq

/-- An `Admin` document, restricted to the fields the controller reads or writes here. -/
structure Admin where
  adminId : String
  wallet : ℚ
deriving DecidableEq

/-- One element of `result.winners`: `{ adminId, winAmount, status }`. -/
structure Winner where
  adminId : String
  winAmount : ℚ
  status : String
deriving DecidableEq

/-- An `AdminGameResult` document: `{ gameId, winners }`. -/
structure AdminGameResult where
  gameId : String
  winners : List Winner
deriving DecidableEq

/-- The collections the controller works on, each in insertion order. -/
structure Store where
  admins : List Admin
  games : List Game
  selectedCards : List SelectedCard
  adminWinnings : List AdminWinnings
deriving DecidableEq

/-! ## JavaScript truthiness -/

/-- A string is truthy unless it is empty. -/
def truthyStr (s : String) : Bool := s != ""

/-- A number is truthy unless it is zero (`NaN` does not arise over exact arithmetic). -/
def truthyNum (x : ℚ) : Bool := x != 0

/-- An array is an object, hence truthy whatever its length: `![]` is `false`. -/
def truthyArray {α : Type} (_xs : List α) : Bool := true

/-- The expression `x || 0` on a number. -/
def orZero (x : ℚ) : ℚ := if truthyNum x then x else 0

/-! ## `addAdminWinning` -/

/-- The fields destructured from `req.body`; `none` is a field that is not supplied. -/
structure WinningRequest where
  adminId : Option String
  gameId : Option String
  winningAmount : Option ℚ
deriving DecidableEq

/-- The HTTP answers of `addAdminWinning`: 400, 404 and 201 with the saved document. -/
inductive WinningResponse where
  | badRequest
  | notFound
  | created (data : AdminWinnings)
deriving DecidableEq

/-- The update `Admin.findOneAndUpdate({ adminId }, { $inc: { wallet: amount } })`:
the first admin with this `adminId` gets `amount` added to its wallet. -/
def incWallet (adminId : String) (amount : ℚ) : List Admin → List Admin
  | [] => []
  | a :: rest =>
    if a.adminId = adminId then { a with wallet := a.wallet + amount } :: rest
    else a :: incWallet adminId amount rest

/-- The function `addAdminWinning` (lines 236-279). A missing field is `undefined`, which is
falsy, so `!adminId || !gameId || !winningAmount` rejects a missing field as well as an
empty string or a zero amount. -/
def addAdminWinning (st : Store) (req : WinningRequest) : Store × WinningResponse :=
  match req.adminId, req.gameId, req.winningAmount with
  | some adminId, some gameId, some winningAmount =>
    if !truthyStr adminId || !truthyStr gameId || !truthyNum winningAmount then
      (st, .badRequest)
    else
      match st.admins.find? (fun a => a.adminId = adminId) with
      | none => (st, .notFound)
      | some _ =>
        let newWinning : AdminWinnings := ⟨adminId, gameId, winningAmount⟩
        ({ st with
            adminWinnings := st.adminWinnings ++ [newWinning]
            admins := incWallet adminId winningAmount st.admins },
          .created newWinning)
  | _, _, _ => (st, .badRequest)

/-! ## `calculateAndStoreAdminWinnings` and `postAllAdminWinnings` -/

/-- The inner loop shared by both settlement paths:
`for (const card of bet.card) if (card.cardNo === winningCardId)
   winningAmount += card.Amount * (winningMultiplier * 10)`. -/
def stakeLoop (winningCardId : Nat) (winningMultiplier : ℚ) (cards : List Stake) : ℚ :=
  cards.foldl
    (fun winningAmount card =>
      if card.cardNo = winningCardId then
        winningAmount + card.Amount * (winningMultiplier * 10)
      else winningAmount)
    0

/-- How a call of `calculateAndStoreAdminWinnings` ends: it runs to the end of the loop,
returns from the `Game or SelectedCard not found` check, or lands in its `catch` block. -/
inductive SettleOutcome where
  | completed
  | notFound
  | caught
deriving DecidableEq

/-- The loop `for (const bet of game.Bets)` of `calculateAndStoreAdminWinnings`, threading the
`AdminWinnings` collection. -/
def settleLoop (gameId : String) (winningCardId : Nat) (winningMultiplier : ℚ)
    (bets : List Bet) (ledger : List AdminWinnings) : List AdminWinnings :=
  bets.foldl
    (fun ledger bet =>
      let adminId := bet.adminID
      let winningAmount := stakeLoop winningCardId winningMultiplier bet.card
      if winningAmount > 0 then ledger ++ [⟨adminId, gameId, winningAmount⟩] else ledger)
    ledger

/-- The function `calculateAndStoreAdminWinnings` (lines 387-423). `selectedCard` is the array
returned by `SelectedCard.find`, `lastCard` its last element (`undefined` for an empty array).
The guard is `!game || !selectedCard`; reading `lastCard.cardId` on `undefined` throws and the
`catch` block swallows the error. -/
def calculateAndStoreAdminWinnings (st : Store) (gameId : String) : Store × SettleOutcome :=
  let game := st.games.find? (fun g => g.GameId = gameId)
  let selectedCard := st.selectedCards.filter (fun c => c.gameId = gameId)
  let lastCard := selectedCard.getLast?
  match game with
  | none => (st, .notFound)
  | some game =>
    if !truthyArray selectedCard then (st, .notFound)
    else
      match lastCard with
      | none => (st, .caught)
      | some lastCard =>
        let winningCardId := lastCard.cardId
        let winningMultiplier := lastCard.multiplier
        ({ st with
            adminWinnings :=
              settleLoop gameId winningCardId winningMultiplier game.Bets st.adminWinnings },
          .completed)

/-- The value returned by `postAllAdminWinnings`. -/
inductive PostResult where
  | error (msg : String)
  | success (totalWinnings : ℚ) (winningRecords : List AdminWinnings)
deriving DecidableEq

/-- The mutable state of the loop of `postAllAdminWinnings`: the `AdminWinnings` collection,
`totalWinnings` and `winningRecords`. -/
structure PostState where
  ledger : List AdminWinnings
  totalWinnings : ℚ
  winningRecords : List AdminWinnings
deriving DecidableEq

/-- One iteration of `for (const game of games)` in `postAllAdminWinnings` (lines 309-344). -/
def postStep (selectedCards : List SelectedCard) (adminId : String)
    (s : PostState) (game : Game) : PostState :=
  match selectedCards.find? (fun c => c.gameId = game.GameId) with
  | none => s
  | some selectedCard =>
    let winningCardId := selectedCard.cardId
    let winningMultiplier := selectedCard.multiplier
    let gameWinningAmount :=
      match game.Bets.find? (fun bet => bet.adminID = adminId) with
      | none => 0
      | some adminBet => stakeLoop winningCardId winningMultiplier adminBet.card
    if gameWinningAmount > 0 then
      let winningRecord : AdminWinnings := ⟨adminId, game.GameId, gameWinningAmount⟩
      { ledger := s.ledger ++ [winningRecord]
        totalWinnings := s.totalWinnings + gameWinningAmount
        winningRecords := s.winningRecords ++ [winningRecord] }
    else s

/-- The function `postAllAdminWinnings` (lines 281-360). -/
def postAllAdminWinnings (st : Store) (adminId : String) : Store × PostResult :=
  if !truthyStr adminId then (st, .error "adminId is required")
  else
    match st.admins.find? (fun a => a.adminId = adminId) with
    | none => (st, .error "Admin not found")
    | some _ =>
      let games := st.games.filter (fun g => g.Bets.any (fun bet => bet.adminID = adminId))
      let s := games.foldl (postStep st.selectedCards adminId) ⟨st.adminWinnings, 0, []⟩
      ({ st with adminWinnings := s.ledger }, .success s.totalWinnings s.winningRecords)

/-! ## `calculateAdminGameTotals` -/

/-- The seven numbers returned by `calculateAdminGameTotals`. -/
structure Totals where
  totalBetAmount : ℚ
  totalWinAmount : ℚ
  endAmount : ℚ
  commission : ℚ
  totalClaimedAmount : ℚ
  unclaimedAmount : ℚ
  NTP : ℚ
deriving DecidableEq

/-- The first loop of `calculateAdminGameTotals` (lines 571-579). -/
def betLoop (adminId : String) (games : List Game) : ℚ :=
  games.foldl
    (fun totalBetAmount game =>
      let adminBets := game.Bets.filter (fun bet => bet.adminID = adminId)
      adminBets.foldl
        (fun totalBetAmount bet =>
          totalBetAmount + bet.card.foldl (fun total card => total + card.Amount) 0)
        totalBetAmount)
    0

/-- The second loop of `calculateAdminGameTotals` (lines 582-592), on the pair
`(totalWinAmount, totalClaimedAmount)`. -/
def winLoop (adminId : String) (adminGameResults : List AdminGameResult) : ℚ × ℚ :=
  adminGameResults.foldl
    (fun acc result =>
      match result.winners.find? (fun winner => winner.adminId = adminId) with
      | none => acc
      | some winnerEntry =>
        let totalWinAmount := acc.1 + orZero winnerEntry.winAmount
        if winnerEntry.status = "claimed" then
          (totalWinAmount, acc.2 + orZero winnerEntry.winAmount)
        else (totalWinAmount, acc.2))
    (0, 0)

/-- Lines 594-611 of `calculateAdminGameTotals`: the derived values. -/
def deriveTotals (totalBetAmount totalWinAmount totalClaimed : ℚ) : Totals :=
  let totalClaimedAmount := orZero totalClaimed
  let endAmount := totalBetAmount - totalWinAmount
  let commission := totalBetAmount * 0.05
  let unclaimedAmount := totalWinAmount - totalClaimedAmount
  let NTP := endAmount - commission
  { totalBetAmount, totalWinAmount, endAmount, commission, totalClaimedAmount,
    unclaimedAmount, NTP }

/-- The function `calculateAdminGameTotals` (lines 560-612). `admin` is the result of
`Admin.findOne(...).lean()`, `null` when there is no such admin. With `admin` null the callbacks
`bet.adminID === admin.adminId` and `winner.adminId === admin.adminId` throw as soon as one of
them runs, that is as soon as a game has a bet or a result has a winner; `none` is that
rejection. -/
def calculateAdminGameTotals (games : List Game) (admin : Option Admin)
    (adminGameResults : List AdminGameResult) : Option Totals :=
  match admin with
  | some admin =>
    let totalBetAmount := betLoop admin.adminId games
    let w := winLoop admin.adminId adminGameResults
    some (deriveTotals totalBetAmount w.1 w.2)
  | none =>
    if games.all (fun game => game.Bets.isEmpty)
        && adminGameResults.all (fun result => result.winners.isEmpty) then
      some (deriveTotals 0 0 0)
    else none


/-! ## Specification-side definitions -/

/-- The payout of one bet against a winning card: the sum of `Amount * (multiplier * 10)` over the
stakes of the bet placed on the winning card. -/
def betPayout (cardId : Nat) (multiplier : ℚ) (b : Bet) : ℚ :=
  ((b.card.filter (fun s => s.cardNo = cardId)).map
    (fun s => s.Amount * (multiplier * 10))).sum

/-- The ledger entries a settlement owes: one per bet with a positive payout, in bet order. -/
def settleEntries (gameId : String) (cardId : Nat) (multiplier : ℚ) (bets : List Bet) :
    List AdminWinnings :=
  (bets.filter (fun b => 0 < betPayout cardId multiplier b)).map
    (fun b => ⟨b.adminID, gameId, betPayout cardId multiplier b⟩)

/-- The payout of an admin in a game as the specification states it: the stakes on the winning
card summed over all bets of the admin, times `multiplier`, times 10. -/
def adminPayout (adminId : String) (cardId : Nat) (multiplier : ℚ) (bets : List Bet) : ℚ :=
  ((bets.filter (fun b => b.adminID = adminId)).map
    (fun b => ((b.card.filter (fun s => s.cardNo = cardId)).map (fun s => s.Amount)).sum)).sum
    * multiplier * 10


/-- The new ledger entries of a settlement that belong to one admin. -/
def entriesOf (adminId : String) (entries : List AdminWinnings) : List AdminWinnings :=
  entries.filter (fun e => e.adminId = adminId)

/-- The record `postAllAdminWinnings` creates for one game, if any: the winning card is the first
`SelectedCard` of the game, the amount comes from the first bet of the admin. -/
def postRecord (selectedCards : List SelectedCard) (adminId : String) (game : Game) :
    Option AdminWinnings :=
  match selectedCards.find? (fun c => c.gameId = game.GameId) with
  | none => none
  | some selectedCard =>
    let gameWinningAmount :=
      match game.Bets.find? (fun bet => bet.adminID = adminId) with
      | none => 0
      | some adminBet => stakeLoop selectedCard.cardId selectedCard.multiplier adminBet.card
    if gameWinningAmount > 0 then some ⟨adminId, game.GameId, gameWinningAmount⟩ else none

/-- The records `postAllAdminWinnings` creates for an admin, in game order. -/
def postRecords (st : Store) (adminId : String) : List AdminWinnings :=
  (st.games.filter (fun g => g.Bets.any (fun bet => bet.adminID = adminId))).filterMap
    (postRecord st.selectedCards adminId)

/-- The sum of the amounts of a list of ledger entries. -/
def ledgerTotal (entries : List AdminWinnings) : ℚ :=
  (entries.map (fun e => e.winningAmount)).sum

/-- The winners entry the report reads in each snapshot: the first one of the admin. -/
def firstWinners (adminId : String) (results : List AdminGameResult) : List Winner :=
  results.filterMap (fun r => r.winners.find? (fun w => w.adminId = adminId))

/-- All winners entries of the admin, in all snapshots. -/
def allWinners (adminId : String) (results : List AdminGameResult) : List Winner :=
  (results.map (fun r => r.winners.filter (fun w => w.adminId = adminId))).flatten

/-! ## Concrete stores -/

/-- The example of the specification: one bet of `A1` with stakes `(3,100)` and `(5,50)`,
winning card `(3, multiplier 2)`; the wallet of `A1` holds 1000. -/
def exampleStore : Store :=
  { admins := [⟨"A1", 1000⟩, ⟨"A2", 70⟩]
    games := [⟨"G1", [⟨"A1", [⟨3, 100⟩, ⟨5, 50⟩]⟩]⟩]
    selectedCards := [⟨"G1", 3, 2⟩]
    adminWinnings := [] }

/-- A game in which `A1` placed two bets, both with a stake on the winning card. -/
def twoBetStore : Store :=
  { admins := [⟨"A1", 0⟩]
    games := [⟨"G1", [⟨"A1", [⟨3, 100⟩]⟩, ⟨"A1", [⟨3, 50⟩]⟩]⟩]
    selectedCards := [⟨"G1", 3, 2⟩]
    adminWinnings := [] }

/-- A game that exists but for which no winning card was recorded. -/
def noCardStore : Store :=
  { admins := [⟨"A1", 0⟩]
    games := [⟨"G1", [⟨"A1", [⟨3, 100⟩]⟩]⟩]
    selectedCards := []
    adminWinnings := [] }

/-- A game with two recorded winning cards: first `(5, multiplier 1)`, then `(3, multiplier 2)`. -/
def twoCardStore : Store :=
  { admins := [⟨"A1", 0⟩]
    games := [⟨"G1", [⟨"A1", [⟨3, 100⟩, ⟨5, 50⟩]⟩]⟩]
    selectedCards := [⟨"G1", 5, 1⟩, ⟨"G1", 3, 2⟩]
    adminWinnings := [] }

/-- Games and result snapshots of the report example: 2000 staked, 1200 won, 800 claimed. -/
def reportGames : List Game := [⟨"G1", [⟨"A1", [⟨3, 1500⟩, ⟨5, 500⟩]⟩, ⟨"A2", [⟨3, 10⟩]⟩]⟩]

/-- The result snapshots of the report example. -/
def reportResults : List AdminGameResult :=
  [⟨"G1", [⟨"A2", 30, "claimed"⟩, ⟨"A1", 800, "claimed"⟩]⟩, ⟨"G2", [⟨"A1", 400, "unclaimed"⟩]⟩]

/-- A snapshot that lists the admin twice among its winners. -/
def twoWinnerResults : List AdminGameResult :=
  [⟨"G1", [⟨"A1", 100, "claimed"⟩, ⟨"A1", 50, "claimed"⟩]⟩]

/-! ## Loop lemmas -/

theorem stakeLoop_foldl (c : Nat) (m : ℚ) (cards : List Stake) (acc : ℚ) :
    cards.foldl
      (fun winningAmount card =>
        if card.cardNo = c then winningAmount + card.Amount * (m * 10) else winningAmount)
      acc
    = acc + ((cards.filter (fun s => s.cardNo = c)).map (fun s => s.Amount * (m * 10))).sum := by
  induction cards generalizing acc with
  | nil => simp
  | cons s rest ih =>
    simp only [List.foldl_cons]
    rw [ih]
    by_cases h : s.cardNo = c
    · simp [h, add_assoc]
    · simp [h]

theorem stakeLoop_eq_betPayout (c : Nat) (m : ℚ) (b : Bet) :
    stakeLoop c m b.card = betPayout c m b := by
  unfold stakeLoop betPayout
  rw [stakeLoop_foldl]
  simp

theorem settleLoop_eq (gameId : String) (c : Nat) (m : ℚ) (bets : List Bet)
    (ledger : List AdminWinnings) :
    settleLoop gameId c m bets ledger = ledger ++ settleEntries gameId c m bets := by
  unfold settleLoop settleEntries
  induction bets generalizing ledger with
  | nil => simp
  | cons b rest ih =>
    simp only [List.foldl_cons]
    rw [ih, stakeLoop_eq_betPayout]
    by_cases h : 0 < betPayout c m b
    · simp [h]
    · simp [h]

theorem settle_of_game_and_card (st : Store) (gameId : String) (game : Game)
    (card : SelectedCard)
    (hg : st.games.find? (fun g => g.GameId = gameId) = some game)
    (hc : (st.selectedCards.filter (fun c => c.gameId = gameId)).getLast? = some card) :
    calculateAndStoreAdminWinnings st gameId
      = ({ st with adminWinnings :=
            st.adminWinnings ++ settleEntries gameId card.cardId card.multiplier game.Bets },
          SettleOutcome.completed) := by
  unfold calculateAndStoreAdminWinnings
  simp only [hg, hc, truthyArray, settleLoop_eq]
  simp

theorem betPayout_eq_zero_of_no_match (c : Nat) (m : ℚ) (b : Bet)
    (h : ∀ s ∈ b.card, s.cardNo ≠ c) : betPayout c m b = 0 := by
  unfold betPayout
  have : b.card.filter (fun s => s.cardNo = c) = [] := by
    simp only [List.filter_eq_nil_iff]
    intro s hs
    simpa using h s hs
  simp [this]

theorem settleEntries_nil_of_no_match (gameId : String) (c : Nat) (m : ℚ) (bets : List Bet)
    (h : ∀ b ∈ bets, ∀ s ∈ b.card, s.cardNo ≠ c) : settleEntries gameId c m bets = [] := by
  unfold settleEntries
  simp only [List.map_eq_nil_iff, List.filter_eq_nil_iff]
  intro b hb
  simp [betPayout_eq_zero_of_no_match c m b (h b hb)]

/-- C1. If the game exists and has a winning card, settlement appends to the ledger, in bet order,
exactly one entry `{adminId: b.adminID, gameId, winningAmount: p(b)}` for each bet `b` with
`p(b) > 0`, where `p(b)` sums `Amount * (multiplier * 10)` over the stakes of `b` on the card of
the last-inserted winning card of the game, and it completes; when no stake of the game is on
that card, the store is left as it was and the call still completes. -/
theorem settleGame_appends_positive_bet_payouts (st : Store) (gameId : String) (game : Game)
    (card : SelectedCard)
    (hg : st.games.find? (fun g => g.GameId = gameId) = some game)
    (hc : (st.selectedCards.filter (fun c => c.gameId = gameId)).getLast? = some card) :
    calculateAndStoreAdminWinnings st gameId
        = ({ st with adminWinnings :=
              st.adminWinnings ++ settleEntries gameId card.cardId card.multiplier game.Bets },
            SettleOutcome.completed)
      ∧ ((∀ b ∈ game.Bets, ∀ s ∈ b.card, s.cardNo ≠ card.cardId) →
          calculateAndStoreAdminWinnings st gameId = (st, SettleOutcome.completed)) := by
  refine ⟨settle_of_game_and_card st gameId game card hg hc, fun h => ?_⟩
  rw [settle_of_game_and_card st gameId game card hg hc,
    settleEntries_nil_of_no_match gameId _ _ _ h]
  simp

/-- Witness of C1: on the example of the specification the game `G1` exists, its last winning card
is `(3, multiplier 2)`, and settlement appends the single entry of 2000 for `A1`. -/
theorem settleGame_appends_positive_bet_payouts_witness :
    exampleStore.games.find? (fun g => g.GameId = "G1")
        = some ⟨"G1", [⟨"A1", [⟨3, 100⟩, ⟨5, 50⟩]⟩]⟩
      ∧ (exampleStore.selectedCards.filter (fun c => c.gameId = "G1")).getLast?
          = some ⟨"G1", 3, 2⟩
      ∧ calculateAndStoreAdminWinnings exampleStore "G1"
          = ({ exampleStore with adminWinnings := [⟨"A1", "G1", 2000⟩] },
              SettleOutcome.completed) := by
  refine ⟨by decide, by decide, ?_⟩
  rw [(settleGame_appends_positive_bet_payouts exampleStore "G1"
        ⟨"G1", [⟨"A1", [⟨3, 100⟩, ⟨5, 50⟩]⟩]⟩ ⟨"G1", 3, 2⟩ (by decide) (by decide)).1]
  norm_num [settleEntries, betPayout, exampleStore]

theorem entriesOf_settleEntries (adminId gameId : String) (c : Nat) (m : ℚ) (bets : List Bet) :
    entriesOf adminId (settleEntries gameId c m bets)
      = settleEntries gameId c m (bets.filter (fun b => b.adminID = adminId)) := by
  unfold entriesOf settleEntries
  induction bets with
  | nil => simp
  | cons b rest ih =>
    by_cases hp : 0 < betPayout c m b <;> by_cases ha : b.adminID = adminId <;>
      simp [List.filter_cons, hp, ha, ih]

theorem adminPayout_single (adminId : String) (c : Nat) (m : ℚ) (bets : List Bet) (b : Bet)
    (h : bets.filter (fun b => b.adminID = adminId) = [b]) :
    adminPayout adminId c m bets = betPayout c m b := by
  unfold adminPayout betPayout
  rw [h]
  simp only [List.map_cons, List.map_nil, List.sum_cons, List.sum_nil, add_zero]
  induction b.card.filter (fun s => s.cardNo = c) with
  | nil => simp
  | cons s rest ih =>
    simp only [List.map_cons, List.sum_cons, ← ih]
    ring

theorem betPayout_eq_mul (c : Nat) (m : ℚ) (b : Bet) :
    betPayout c m b
      = ((b.card.filter (fun s => s.cardNo = c)).map (fun s => s.Amount)).sum * m * 10 := by
  unfold betPayout
  induction b.card.filter (fun s => s.cardNo = c) with
  | nil => simp
  | cons s rest ih =>
    simp only [List.map_cons, List.sum_cons, ih]
    ring

theorem adminPayout_eq_sum (adminId : String) (c : Nat) (m : ℚ) (bets : List Bet) :
    adminPayout adminId c m bets
      = ((bets.filter (fun b => b.adminID = adminId)).map (betPayout c m)).sum := by
  unfold adminPayout
  induction bets.filter (fun b => b.adminID = adminId) with
  | nil => simp
  | cons b rest ih =>
    simp only [List.map_cons, List.sum_cons, ← ih, betPayout_eq_mul]
    ring

theorem betPayout_nonneg (c : Nat) (m : ℚ) (b : Bet) (hm : 0 ≤ m)
    (hs : ∀ s ∈ b.card, 0 ≤ s.Amount) : 0 ≤ betPayout c m b := by
  unfold betPayout
  apply List.sum_nonneg
  intro x hx
  obtain ⟨s, hsm, rfl⟩ := List.mem_map.1 hx
  have h0 : 0 ≤ s.Amount := hs s (List.mem_filter.1 hsm).1
  positivity

theorem sum_filter_pos (f : Bet → ℚ) (bets : List Bet) (h : ∀ b ∈ bets, 0 ≤ f b) :
    ((bets.filter (fun b => 0 < f b)).map f).sum = (bets.map f).sum := by
  induction bets with
  | nil => simp
  | cons b rest ih =>
    have ih2 := ih (fun x hx => h x (List.mem_cons_of_mem _ hx))
    by_cases hp : 0 < f b
    · simp [List.filter_cons, hp, ih2]
    · have hz : f b = 0 := le_antisymm (not_lt.1 hp) (h b (List.mem_cons_self _ _))
      simp [List.filter_cons, hp, ih2, hz]

theorem ledgerTotal_settleEntries (gameId : String) (c : Nat) (m : ℚ) (bets : List Bet) :
    ledgerTotal (settleEntries gameId c m bets)
      = ((bets.filter (fun b => 0 < betPayout c m b)).map (betPayout c m)).sum := by
  unfold ledgerTotal settleEntries
  simp [List.map_map, Function.comp_def]

/-- C2. (amended) If the game exists and has a winning card, the entries settlement creates for an
admin are, in bet order, one per bet of that admin whose own payout is positive, each carrying
the settled game id and that bet's payout; when the admin has exactly one bet in the game and the
payout `P` over the admin's stakes on the winning card is positive, this is exactly one entry, of
amount `P`; when no stake of the game and not the multiplier is negative, the amounts of the
admin's entries add up to `P`. -/
theorem settleGame_entries_per_bet (st : Store) (gameId adminId : String) (game : Game)
    (card : SelectedCard)
    (hg : st.games.find? (fun g => g.GameId = gameId) = some game)
    (hc : (st.selectedCards.filter (fun c => c.gameId = gameId)).getLast? = some card) :
    ∃ created : List AdminWinnings,
      (calculateAndStoreAdminWinnings st gameId).1.adminWinnings = st.adminWinnings ++ created
      ∧ entriesOf adminId created
          = ((game.Bets.filter (fun b => b.adminID = adminId)).filter
              (fun b => 0 < betPayout card.cardId card.multiplier b)).map
              (fun b => ⟨adminId, gameId, betPayout card.cardId card.multiplier b⟩)
      ∧ (∀ b, game.Bets.filter (fun b => b.adminID = adminId) = [b] →
          0 < adminPayout adminId card.cardId card.multiplier game.Bets →
          entriesOf adminId created
            = [⟨adminId, gameId, adminPayout adminId card.cardId card.multiplier game.Bets⟩])
      ∧ ((∀ b ∈ game.Bets, ∀ s ∈ b.card, 0 ≤ s.Amount) → 0 ≤ card.multiplier →
          ledgerTotal (entriesOf adminId created)
            = adminPayout adminId card.cardId card.multiplier game.Bets) := by
  refine ⟨settleEntries gameId card.cardId card.multiplier game.Bets, ?_, ?_, ?_, ?_⟩
  · rw [settle_of_game_and_card st gameId game card hg hc]
  · rw [entriesOf_settleEntries]
    unfold settleEntries
    apply List.map_congr_left
    intro b hb
    have : b.adminID = adminId := by
      have := (List.mem_filter.1 (List.mem_filter.1 hb).1).2
      simpa using this
    simp [this]
  · intro b hb hP
    rw [entriesOf_settleEntries, hb]
    rw [adminPayout_single adminId _ _ _ b hb] at hP ⊢
    have ha : b.adminID = adminId := by
      have hm : b ∈ game.Bets.filter (fun b => b.adminID = adminId) := by simp [hb]
      simpa using (List.mem_filter.1 hm).2
    simp [settleEntries, hP, ha]
  · intro hs hm
    rw [entriesOf_settleEntries, ledgerTotal_settleEntries, adminPayout_eq_sum]
    apply sum_filter_pos
    intro b hb
    exact betPayout_nonneg _ _ b hm (hs b (List.mem_filter.1 hb).1)

/-- Witness of C2: the example of the specification, one bet of `A1` with stakes `(3,100)` and
`(5,50)` against the winning card `(3, multiplier 2)`, yields one entry of 2000. -/
theorem settleGame_entries_per_bet_witness :
    ∃ created : List AdminWinnings,
      (calculateAndStoreAdminWinnings exampleStore "G1").1.adminWinnings
        = exampleStore.adminWinnings ++ created
      ∧ entriesOf "A1" created = [⟨"A1", "G1", 2000⟩] := by
  obtain ⟨created, h1, _, h3, _⟩ :=
    settleGame_entries_per_bet exampleStore "G1" "A1"
      ⟨"G1", [⟨"A1", [⟨3, 100⟩, ⟨5, 50⟩]⟩]⟩ ⟨"G1", 3, 2⟩ (by decide) (by decide)
  refine ⟨created, h1, ?_⟩
  have h := h3 ⟨"A1", [⟨3, 100⟩, ⟨5, 50⟩]⟩ (by decide) (by norm_num [adminPayout])
  rw [h]
  norm_num [adminPayout]

/-- Counterexample to C2: `A1` has two bets in `G1`, with stakes 100 and 50 on the winning card
`(3, multiplier 2)`. The payout over all bets of `A1` is 3000 and positive, yet settlement creates
two entries for `(A1, G1)`, of 2000 and 1000, and none of 3000. -/
theorem settleGame_one_entry_per_admin_counterexample :
    adminPayout "A1" 3 2 [⟨"A1", [⟨3, 100⟩]⟩, ⟨"A1", [⟨3, 50⟩]⟩] = 3000
      ∧ twoBetStore.adminWinnings = []
      ∧ (calculateAndStoreAdminWinnings twoBetStore "G1").1.adminWinnings
          = [⟨"A1", "G1", 2000⟩, ⟨"A1", "G1", 1000⟩]
      ∧ entriesOf "A1" (calculateAndStoreAdminWinnings twoBetStore "G1").1.adminWinnings
          ≠ [⟨"A1", "G1", adminPayout "A1" 3 2 [⟨"A1", [⟨3, 100⟩]⟩, ⟨"A1", [⟨3, 50⟩]⟩]⟩] := by
  have h : (calculateAndStoreAdminWinnings twoBetStore "G1").1.adminWinnings
      = [⟨"A1", "G1", 2000⟩, ⟨"A1", "G1", 1000⟩] := by
    rw [settle_of_game_and_card twoBetStore "G1"
        ⟨"G1", [⟨"A1", [⟨3, 100⟩]⟩, ⟨"A1", [⟨3, 50⟩]⟩]⟩ ⟨"G1", 3, 2⟩ (by decide) (by decide)]
    norm_num [settleEntries, betPayout, twoBetStore]
  refine ⟨by norm_num [adminPayout], rfl, h, ?_⟩
  rw [h]
  simp [entriesOf]


/-! ## `addAdminWinning` -/

theorem incWallet_split (adminId : String) (amount : ℚ) (admins : List Admin)
    (h : ∃ a ∈ admins, a.adminId = adminId) :
    ∃ pre a post, admins = pre ++ a :: post ∧ a.adminId = adminId
      ∧ (∀ x ∈ pre, x.adminId ≠ adminId)
      ∧ incWallet adminId amount admins
          = pre ++ { a with wallet := a.wallet + amount } :: post := by
  induction admins with
  | nil => simp at h
  | cons x rest ih =>
    by_cases hx : x.adminId = adminId
    · exact ⟨[], x, rest, by simp, hx, by simp, by simp [incWallet, hx]⟩
    · have h2 : ∃ a ∈ rest, a.adminId = adminId := by
        obtain ⟨a, ha, hid⟩ := h
        rcases List.mem_cons.1 ha with rfl | hr
        · exact absurd hid hx
        · exact ⟨a, hr, hid⟩
      obtain ⟨pre, a, post, h1, h3, h4, h5⟩ := ih h2
      refine ⟨x :: pre, a, post, by simp [h1], h3, ?_, ?_⟩
      · intro y hy
        rcases List.mem_cons.1 hy with rfl | hr
        · exact hx
        · exact h4 y hr
      · simp [incWallet, hx, h5]

theorem find_admin_isSome (adminId : String) (admins : List Admin)
    (h : ∃ a ∈ admins, a.adminId = adminId) :
    ∃ a, admins.find? (fun a => a.adminId = adminId) = some a := by
  obtain ⟨a, ha, hid⟩ := h
  have : (admins.find? (fun a => decide (a.adminId = adminId))).isSome := by
    rw [List.find?_isSome]
    exact ⟨a, ha, by simpa using hid⟩
  exact Option.isSome_iff_exists.1 this

/-- C3. (amended) When `adminId` and `gameId` are supplied and non-empty, `winningAmount` is
supplied and non-zero, and the admin exists, the call answers 201 with the new entry, appends
exactly that one entry `{adminId, gameId, winningAmount}` to the ledger, adds exactly
`winningAmount` to the wallet of the (first) admin with this id and leaves every other admin
record, the games and the winning cards as they were. -/
theorem addAdminWinning_posts_entry_and_wallet (st : Store) (adminId gameId : String)
    (winningAmount : ℚ) (hA : adminId ≠ "") (hG : gameId ≠ "") (hW : winningAmount ≠ 0)
    (hex : ∃ a ∈ st.admins, a.adminId = adminId) :
    ∃ pre a post, st.admins = pre ++ a :: post ∧ a.adminId = adminId
      ∧ (∀ x ∈ pre, x.adminId ≠ adminId)
      ∧ addAdminWinning st ⟨some adminId, some gameId, some winningAmount⟩
          = ({ st with
                adminWinnings := st.adminWinnings ++ [⟨adminId, gameId, winningAmount⟩]
                admins := pre ++ { a with wallet := a.wallet + winningAmount } :: post },
              WinningResponse.created ⟨adminId, gameId, winningAmount⟩) := by
  obtain ⟨pre, a, post, h1, h2, h3, h4⟩ := incWallet_split adminId winningAmount st.admins hex
  obtain ⟨a0, hfind⟩ := find_admin_isSome adminId st.admins hex
  refine ⟨pre, a, post, h1, h2, h3, ?_⟩
  simp [addAdminWinning, truthyStr, truthyNum, hA, hG, hW, hfind, h4]

/-- Witness of C3: `addAdminWinning("A1","G1",500)` on a wallet of 1000 gives a wallet of 1500 and
one entry of 500; the wallet of `A2` stays at 70. -/
theorem addAdminWinning_posts_entry_and_wallet_witness :
    addAdminWinning exampleStore ⟨some "A1", some "G1", some 500⟩
      = ({ exampleStore with
            adminWinnings := [⟨"A1", "G1", 500⟩]
            admins := [⟨"A1", 1500⟩, ⟨"A2", 70⟩] },
          WinningResponse.created ⟨"A1", "G1", 500⟩) := by
  obtain ⟨pre, a, post, h1, h2, h3, h4⟩ :=
    addAdminWinning_posts_entry_and_wallet exampleStore "A1" "G1" 500
      (by decide) (by decide) (by norm_num) ⟨⟨"A1", 1000⟩, by simp [exampleStore], rfl⟩
  rw [h4]
  have hpre : pre = [] := by
    cases pre with
    | nil => rfl
    | cons x rest =>
      exfalso
      have hx : x = ⟨"A1", 1000⟩ := by
        have := h1
        simp [exampleStore] at this
        exact this.1.symm
      exact h3 x (by simp) (by rw [hx])
  subst hpre
  simp [exampleStore] at h1
  obtain ⟨ha, hpost⟩ := h1
  subst ha hpost
  norm_num [exampleStore]

/-- Counterexample to C3: `adminId`, `gameId` and `winningAmount` are all supplied and the admin
exists, but the amount is 0: the call answers 400 and appends nothing. -/
theorem addAdminWinning_zero_amount_counterexample :
    (∃ a ∈ exampleStore.admins, a.adminId = "A1")
      ∧ addAdminWinning exampleStore ⟨some "A1", some "G1", some 0⟩
          = (exampleStore, WinningResponse.badRequest) := by
  refine ⟨⟨⟨"A1", 1000⟩, by simp [exampleStore], rfl⟩, ?_⟩
  simp [addAdminWinning, truthyStr, truthyNum]

/-- C4. (amended) The call answers 400 if and only if one of `adminId`, `gameId`,
`winningAmount` is missing or falsy (an empty id, a zero amount); it answers 404 if and only if
the three are supplied and truthy and no admin has this id; in both cases the store, ledger and
wallets included, is returned unchanged. -/
theorem addAdminWinning_rejections (st : Store) (req : WinningRequest) :
    ((addAdminWinning st req).2 = WinningResponse.badRequest ↔
        (req.adminId = none ∨ req.adminId = some "" ∨ req.gameId = none ∨ req.gameId = some ""
          ∨ req.winningAmount = none ∨ req.winningAmount = some 0))
      ∧ ((addAdminWinning st req).2 = WinningResponse.notFound ↔
          ∃ adminId gameId winningAmount,
            req = ⟨some adminId, some gameId, some winningAmount⟩
              ∧ adminId ≠ "" ∧ gameId ≠ "" ∧ winningAmount ≠ 0
              ∧ ∀ a ∈ st.admins, a.adminId ≠ adminId)
      ∧ ((addAdminWinning st req).2 = WinningResponse.badRequest → (addAdminWinning st req).1 = st)
      ∧ ((addAdminWinning st req).2 = WinningResponse.notFound → (addAdminWinning st req).1 = st)
    := by
  obtain ⟨oa, og, ow⟩ := req
  cases oa with
  | none => simp [addAdminWinning]
  | some adminId =>
    cases og with
    | none => simp [addAdminWinning]
    | some gameId =>
      cases ow with
      | none => simp [addAdminWinning]
      | some winningAmount =>
        by_cases hA : adminId = ""
        · simp [addAdminWinning, truthyStr, hA]
        by_cases hG : gameId = ""
        · simp [addAdminWinning, truthyStr, hG]
        by_cases hW : winningAmount = 0
        · simp [addAdminWinning, truthyNum, hW]
        cases hfind : st.admins.find? (fun a => a.adminId = adminId) with
        | none =>
          have hno : ∀ a ∈ st.admins, a.adminId ≠ adminId := by
            intro a ha
            have := List.find?_eq_none.1 hfind a ha
            simpa using this
          simp [addAdminWinning, truthyStr, truthyNum, hA, hG, hW, hfind]
          exact ⟨adminId, gameId, winningAmount, ⟨rfl, rfl, rfl⟩, hA, hG, hW, hno⟩
        | some a0 =>
          have hyes : ∃ a ∈ st.admins, a.adminId = adminId := by
            refine ⟨a0, List.mem_of_find?_eq_some hfind, ?_⟩
            have := List.find?_some hfind
            simpa using this
          simp [addAdminWinning, truthyStr, truthyNum, hA, hG, hW, hfind]
          exact hyes

/-- Witness of C4: a request without `winningAmount` is answered 400 and the store is unchanged. -/
theorem addAdminWinning_rejections_witness :
    (addAdminWinning exampleStore ⟨some "A1", some "G1", none⟩).2 = WinningResponse.badRequest
      ∧ (addAdminWinning exampleStore ⟨some "A1", some "G1", none⟩).1 = exampleStore :=
  ⟨by decide,
    (addAdminWinning_rejections exampleStore ⟨some "A1", some "G1", none⟩).2.2.1 (by decide)⟩

/-- Counterexample to C4: it is not so that the call answers 400 exactly when a field is missing;
with all three fields supplied and `winningAmount` equal to 0 the answer is 400. -/
theorem addAdminWinning_invalid_iff_missing_counterexample :
    ¬ (∀ (st : Store) (req : WinningRequest),
        (addAdminWinning st req).2 = WinningResponse.badRequest ↔
          (req.adminId = none ∨ req.gameId = none ∨ req.winningAmount = none)) := by
  intro h
  have h1 := (h exampleStore ⟨some "A1", some "G1", some 0⟩).1
    (by simp [addAdminWinning, truthyStr, truthyNum])
  simp at h1


/-! ## Settlement without a winning card, and the winning card of the backfill -/

theorem settle_of_no_game (st : Store) (gameId : String)
    (hg : ∀ g ∈ st.games, g.GameId ≠ gameId) :
    calculateAndStoreAdminWinnings st gameId = (st, SettleOutcome.notFound) := by
  have : st.games.find? (fun g => g.GameId = gameId) = none := by
    rw [List.find?_eq_none]
    intro g hgm
    simpa using hg g hgm
  simp [calculateAndStoreAdminWinnings, this]

theorem settle_of_game_and_no_card (st : Store) (gameId : String) (game : Game)
    (hg : st.games.find? (fun g => g.GameId = gameId) = some game)
    (hc : ∀ c ∈ st.selectedCards, c.gameId ≠ gameId) :
    calculateAndStoreAdminWinnings st gameId = (st, SettleOutcome.caught) := by
  have : st.selectedCards.filter (fun c => c.gameId = gameId) = [] := by
    rw [List.filter_eq_nil_iff]
    intro c hcm
    simpa using hc c hcm
  simp [calculateAndStoreAdminWinnings, hg, this, truthyArray]

/-- C5. (evaluation at the failing input) The game `G1` exists and has no winning card: the
guard `!game || !selectedCard` lets the call through, since the empty array is truthy, and the
call ends in its `catch` block, not in the not-found return; the store is unchanged. -/
theorem settleGame_no_card_ends_in_catch :
    noCardStore.games.find? (fun g => g.GameId = "G1") = some ⟨"G1", [⟨"A1", [⟨3, 100⟩]⟩]⟩
      ∧ noCardStore.selectedCards.filter (fun c => c.gameId = "G1") = []
      ∧ calculateAndStoreAdminWinnings noCardStore "G1" = (noCardStore, SettleOutcome.caught)
      ∧ (calculateAndStoreAdminWinnings noCardStore "G1").2 ≠ SettleOutcome.notFound := by
  have h := settle_of_game_and_no_card noCardStore "G1" ⟨"G1", [⟨"A1", [⟨3, 100⟩]⟩]⟩
    (by decide) (by simp [noCardStore])
  refine ⟨by decide, by decide, h, ?_⟩
  rw [h]
  decide

theorem postStep_eq (selectedCards : List SelectedCard) (adminId : String) (s : PostState)
    (game : Game) :
    postStep selectedCards adminId s game
      = match postRecord selectedCards adminId game with
        | none => s
        | some r =>
          { ledger := s.ledger ++ [r]
            totalWinnings := s.totalWinnings + r.winningAmount
            winningRecords := s.winningRecords ++ [r] } := by
  unfold postStep postRecord
  cases selectedCards.find? (fun c => c.gameId = game.GameId) with
  | none => rfl
  | some c =>
    simp only
    split_ifs <;> rfl

theorem post_foldl (selectedCards : List SelectedCard) (adminId : String) (games : List Game)
    (s : PostState) :
    games.foldl (postStep selectedCards adminId) s
      = { ledger := s.ledger ++ games.filterMap (postRecord selectedCards adminId)
          totalWinnings :=
            s.totalWinnings + ledgerTotal (games.filterMap (postRecord selectedCards adminId))
          winningRecords :=
            s.winningRecords ++ games.filterMap (postRecord selectedCards adminId) } := by
  induction games generalizing s with
  | nil => simp [ledgerTotal]
  | cons g rest ih =>
    simp only [List.foldl_cons]
    rw [ih, postStep_eq]
    cases h : postRecord selectedCards adminId g with
    | none => simp [List.filterMap_cons, h]
    | some r => simp [List.filterMap_cons, h, ledgerTotal, add_assoc]

theorem post_of_admin (st : Store) (adminId : String) (hA : adminId ≠ "")
    (hex : ∃ a ∈ st.admins, a.adminId = adminId) :
    postAllAdminWinnings st adminId
      = ({ st with adminWinnings := st.adminWinnings ++ postRecords st adminId },
          PostResult.success (ledgerTotal (postRecords st adminId)) (postRecords st adminId)) := by
  obtain ⟨a0, hfind⟩ := find_admin_isSome adminId st.admins hex
  simp [postAllAdminWinnings, truthyStr, hA, hfind, post_foldl, postRecords]

/-- C6. (evaluation at the failing input) The game `G1` has the winning cards `(5, multiplier 1)`
and then `(3, multiplier 2)`; `A1` staked 100 on card 3 and 50 on card 5. Settlement uses the
last card and records 2000; the backfill uses the first card and records 500. -/
theorem backfill_uses_first_card_settle_uses_last :
    (calculateAndStoreAdminWinnings twoCardStore "G1").1.adminWinnings = [⟨"A1", "G1", 2000⟩]
      ∧ (postAllAdminWinnings twoCardStore "A1").2
          = PostResult.success 500 [⟨"A1", "G1", 500⟩] := by
  constructor
  · rw [settle_of_game_and_card twoCardStore "G1" ⟨"G1", [⟨"A1", [⟨3, 100⟩, ⟨5, 50⟩]⟩]⟩
        ⟨"G1", 3, 2⟩ (by decide) (by decide)]
    norm_num [settleEntries, betPayout, twoCardStore]
  · rw [post_of_admin twoCardStore "A1" (by decide) ⟨⟨"A1", 0⟩, by simp [twoCardStore], rfl⟩]
    norm_num [postRecords, List.filterMap, postRecord, twoCardStore, ledgerTotal, stakeLoop]

/-- C7. (evaluation at the failing input) `A1` has two bets in `G1`, with stakes 100 and 50 on the
winning card `(3, multiplier 2)`. The payout over all bets of `A1` is 3000; the backfill reads
the first bet only and records and returns 2000. -/
theorem backfill_reads_first_bet_only :
    adminPayout "A1" 3 2 [⟨"A1", [⟨3, 100⟩]⟩, ⟨"A1", [⟨3, 50⟩]⟩] = 3000
      ∧ postAllAdminWinnings twoBetStore "A1"
          = ({ twoBetStore with adminWinnings := [⟨"A1", "G1", 2000⟩] },
              PostResult.success 2000 [⟨"A1", "G1", 2000⟩]) := by
  refine ⟨by norm_num [adminPayout], ?_⟩
  rw [post_of_admin twoBetStore "A1" (by decide) ⟨⟨"A1", 0⟩, by simp [twoBetStore], rfl⟩]
  norm_num [postRecords, List.filterMap, postRecord, twoBetStore, ledgerTotal, stakeLoop]

/-- C8. For every store with an existing admin, two calls of the backfill in sequence return the
same result, with the same `totalWinnings` and the same list of records (a success whenever the
id is not the empty string, which the function rejects), the ledger after the two calls is the
original ledger followed by two copies of that list, `totalWinnings` is the sum of the amounts of
the list, and the amount added to the ledger is twice `totalWinnings`. -/
theorem backfill_twice_duplicates (st : Store) (adminId : String)
    (hex : ∃ a ∈ st.admins, a.adminId = adminId) :
    ∃ (r : PostResult) (total : ℚ) (recs : List AdminWinnings),
      postAllAdminWinnings st adminId
          = ({ st with adminWinnings := st.adminWinnings ++ recs }, r)
        ∧ postAllAdminWinnings (postAllAdminWinnings st adminId).1 adminId
            = ({ st with adminWinnings := st.adminWinnings ++ recs ++ recs }, r)
        ∧ (adminId ≠ "" → r = PostResult.success total recs)
        ∧ ledgerTotal recs = total
        ∧ ledgerTotal (recs ++ recs) = 2 * total := by
  by_cases hA : adminId = ""
  · refine ⟨PostResult.error "adminId is required", 0, [], ?_, ?_, fun h => absurd hA h, ?_, ?_⟩
    · simp [postAllAdminWinnings, truthyStr, hA]
    · simp [postAllAdminWinnings, truthyStr, hA]
    · simp [ledgerTotal]
    · simp [ledgerTotal]
  · refine ⟨_, ledgerTotal (postRecords st adminId), postRecords st adminId,
      post_of_admin st adminId hA hex, ?_, fun _ => rfl, rfl, ?_⟩
    · rw [post_of_admin st adminId hA hex]
      rw [post_of_admin { st with adminWinnings := st.adminWinnings ++ postRecords st adminId }
        adminId hA hex]
      simp [postRecords]
    · simp [ledgerTotal, two_mul]

/-- Witness of C8: on the example store the backfill for `A1` returns 2000 and one record each
time, and the ledger ends with two copies of that record. -/
theorem backfill_twice_duplicates_witness :
    postAllAdminWinnings exampleStore "A1"
        = ({ exampleStore with adminWinnings := [⟨"A1", "G1", 2000⟩] },
            PostResult.success 2000 [⟨"A1", "G1", 2000⟩])
      ∧ postAllAdminWinnings (postAllAdminWinnings exampleStore "A1").1 "A1"
          = ({ exampleStore with adminWinnings := [⟨"A1", "G1", 2000⟩, ⟨"A1", "G1", 2000⟩] },
              PostResult.success 2000 [⟨"A1", "G1", 2000⟩]) := by
  obtain ⟨r, total, recs, h1, h2, h3, h4, _⟩ :=
    backfill_twice_duplicates exampleStore "A1" ⟨⟨"A1", 1000⟩, by simp [exampleStore], rfl⟩
  have hr := h3 (by decide)
  subst hr
  have e : postAllAdminWinnings exampleStore "A1"
      = ({ exampleStore with adminWinnings := [⟨"A1", "G1", 2000⟩] },
          PostResult.success 2000 [⟨"A1", "G1", 2000⟩]) := by
    rw [post_of_admin exampleStore "A1" (by decide) ⟨⟨"A1", 1000⟩, by simp [exampleStore], rfl⟩]
    norm_num [postRecords, List.filterMap, postRecord, exampleStore, ledgerTotal, stakeLoop]
  have h5 := h1.symm.trans e
  simp only [Prod.mk.injEq, PostResult.success.injEq] at h5
  obtain ⟨_, ht, hrecs⟩ := h5
  subst ht hrecs
  refine ⟨e, ?_⟩
  rw [h2]
  simp [exampleStore]


/-! ## Report totals -/

theorem orZero_eq (x : ℚ) : orZero x = x := by
  unfold orZero truthyNum
  by_cases h : x = 0 <;> simp [h]

theorem winLoop_foldl (adminId : String) (results : List AdminGameResult) (acc : ℚ × ℚ) :
    results.foldl
      (fun acc result =>
        match result.winners.find? (fun winner => winner.adminId = adminId) with
        | none => acc
        | some winnerEntry =>
          let totalWinAmount := acc.1 + orZero winnerEntry.winAmount
          if winnerEntry.status = "claimed" then
            (totalWinAmount, acc.2 + orZero winnerEntry.winAmount)
          else (totalWinAmount, acc.2))
      acc
    = (acc.1 + ((firstWinners adminId results).map (fun w => w.winAmount)).sum,
        acc.2 + (((firstWinners adminId results).filter (fun w => w.status = "claimed")).map
          (fun w => w.winAmount)).sum) := by
  induction results generalizing acc with
  | nil => simp [firstWinners]
  | cons r rest ih =>
    simp only [List.foldl_cons]
    rw [ih]
    cases h : r.winners.find? (fun winner => winner.adminId = adminId) with
    | none => simp [firstWinners, List.filterMap_cons, h]
    | some w =>
      by_cases hs : w.status = "claimed"
      · simp [firstWinners, List.filterMap_cons, h, hs, orZero_eq, add_assoc]
      · simp [firstWinners, List.filterMap_cons, h, hs, orZero_eq, add_assoc]

theorem winLoop_eq (adminId : String) (results : List AdminGameResult) :
    winLoop adminId results
      = (((firstWinners adminId results).map (fun w => w.winAmount)).sum,
          (((firstWinners adminId results).filter (fun w => w.status = "claimed")).map
            (fun w => w.winAmount)).sum) := by
  unfold winLoop
  rw [winLoop_foldl]
  simp

theorem deriveTotals_relations (b w c : ℚ) :
    (deriveTotals b w c).totalBetAmount = b ∧ (deriveTotals b w c).totalWinAmount = w
      ∧ (deriveTotals b w c).totalClaimedAmount = c
      ∧ (deriveTotals b w c).endAmount = b - w
      ∧ (deriveTotals b w c).commission = b * 5 / 100
      ∧ (deriveTotals b w c).unclaimedAmount = w - c
      ∧ (deriveTotals b w c).NTP = b - w - b * 5 / 100 := by
  simp only [deriveTotals, orZero_eq]
  refine ⟨trivial, trivial, trivial, trivial, ?_, trivial, ?_⟩ <;> norm_num <;> ring

theorem totals_cases (games : List Game) (admin : Option Admin)
    (results : List AdminGameResult) (r : Totals)
    (h : calculateAdminGameTotals games admin results = some r) :
    ∃ b w c, r = deriveTotals b w c := by
  unfold calculateAdminGameTotals at h
  cases admin with
  | some a =>
    simp only [Option.some.injEq] at h
    exact ⟨_, _, _, h.symm⟩
  | none =>
    simp only at h
    split_ifs at h
    simp only [Option.some.injEq] at h
    exact ⟨_, _, _, h.symm⟩

/-- C9. For an admin record that is present the report always returns, and whatever the report
returns satisfies `endAmount = totalBetAmount - totalWinAmount`,
`commission = totalBetAmount * 5 / 100` (0 when `totalBetAmount` is 0),
`unclaimedAmount = totalWinAmount - totalClaimedAmount` and `NTP = endAmount - commission`; on
the example with 2000 staked, 1200 won and 800 claimed it returns `endAmount` 800,
`commission` 100, `unclaimedAmount` 400 and `NTP` 700. -/
theorem totals_derived_values :
    (∀ (games : List Game) (a : Admin) (results : List AdminGameResult),
        ∃ r, calculateAdminGameTotals games (some a) results = some r)
      ∧ (∀ (games : List Game) (admin : Option Admin) (results : List AdminGameResult)
          (r : Totals), calculateAdminGameTotals games admin results = some r →
            r.endAmount = r.totalBetAmount - r.totalWinAmount
              ∧ r.commission = r.totalBetAmount * 5 / 100
              ∧ (r.totalBetAmount = 0 → r.commission = 0)
              ∧ r.unclaimedAmount = r.totalWinAmount - r.totalClaimedAmount
              ∧ r.NTP = r.endAmount - r.commission)
      ∧ calculateAdminGameTotals reportGames (some ⟨"A1", 0⟩) reportResults
          = some { totalBetAmount := 2000, totalWinAmount := 1200, endAmount := 800,
                   commission := 100, totalClaimedAmount := 800, unclaimedAmount := 400,
                   NTP := 700 } := by
  refine ⟨fun games a results => ⟨_, rfl⟩, ?_, ?_⟩
  · intro games admin results r h
    obtain ⟨b, w, c, rfl⟩ := totals_cases games admin results r h
    obtain ⟨h1, h2, h3, h4, h5, h6, h7⟩ := deriveTotals_relations b w c
    rw [h1, h2, h3, h4, h5, h6, h7]
    refine ⟨rfl, rfl, ?_, rfl, rfl⟩
    intro hb
    rw [hb]
    norm_num
  · simp only [calculateAdminGameTotals, winLoop_eq]
    norm_num +decide [deriveTotals, orZero_eq, betLoop, firstWinners, reportGames, reportResults,
      List.filterMap, List.filter, List.find?]

/-- Witness of C9: the relations, read off the value returned on the example input. -/
theorem totals_derived_values_witness :
    calculateAdminGameTotals reportGames (some ⟨"A1", 0⟩) reportResults
        = some { totalBetAmount := 2000, totalWinAmount := 1200, endAmount := 800,
                 commission := 100, totalClaimedAmount := 800, unclaimedAmount := 400,
                 NTP := 700 }
      ∧ (800 : ℚ) = 2000 - 1200 ∧ (100 : ℚ) = 2000 * 5 / 100
      ∧ (400 : ℚ) = 1200 - 800 ∧ (700 : ℚ) = 800 - 100 := by
  have h := totals_derived_values.2.1 reportGames (some ⟨"A1", 0⟩) reportResults _
    totals_derived_values.2.2
  exact ⟨totals_derived_values.2.2, h.1, h.2.1, h.2.2.2.1, h.2.2.2.2⟩

/-- C10. (amended) For an admin record that is present, `totalWinAmount` is the sum of
`winAmount` over the first winners entry of the admin in each fetched snapshot, and
`totalClaimedAmount` is the sum of `winAmount` over those of these first entries whose status is
`claimed`. -/
theorem totals_win_and_claimed (games : List Game) (a : Admin)
    (results : List AdminGameResult) :
    ∃ r, calculateAdminGameTotals games (some a) results = some r
      ∧ r.totalWinAmount = ((firstWinners a.adminId results).map (fun w => w.winAmount)).sum
      ∧ r.totalClaimedAmount
          = (((firstWinners a.adminId results).filter (fun w => w.status = "claimed")).map
              (fun w => w.winAmount)).sum := by
  refine ⟨_, rfl, ?_, ?_⟩
  · simp [deriveTotals, winLoop_eq]
  · simp [deriveTotals, winLoop_eq, orZero_eq]

/-- Counterexample to C10: a snapshot lists `A1` twice among its winners, with 100 and 50, both
claimed. The sum over all entries of `A1` is 150; the report counts the first entry only and
returns 100 for `totalWinAmount` and for `totalClaimedAmount`. -/
theorem totals_win_all_entries_counterexample :
    ((allWinners "A1" twoWinnerResults).map (fun w => w.winAmount)).sum = 150
      ∧ (((allWinners "A1" twoWinnerResults).filter (fun w => w.status = "claimed")).map
          (fun w => w.winAmount)).sum = 150
      ∧ calculateAdminGameTotals [] (some ⟨"A1", 0⟩) twoWinnerResults
          = some { totalBetAmount := 0, totalWinAmount := 100, endAmount := -100,
                   commission := 0, totalClaimedAmount := 100, unclaimedAmount := 0,
                   NTP := -100 } := by
  refine ⟨by norm_num [allWinners, twoWinnerResults], by norm_num [allWinners, twoWinnerResults],
    ?_⟩
  simp only [calculateAdminGameTotals, winLoop_eq]
  norm_num +decide [deriveTotals, orZero_eq, betLoop, firstWinners, twoWinnerResults,
    List.filterMap, List.filter, List.find?]


end LuckyCard
